import Mathlib

/-!
Shallow embedding of `src/main/python/apache/aurora/executor/common/sandbox.py`
(the sandbox core of apache/aurora's executor).

The operating-system surface the module touches (environment variables, the
user/group database, filesystem primitives, the `useradd` child process) is
modelled by an explicit read-only `World` record.  Filesystem-mutating
operations thread an explicit flat filesystem map `FS` and append the attempted
OS actions to a trace, so that ordering and short-circuiting properties of
`create()`/`destroy()` can be stated and proved.  Failures that Python raises
as exceptions are returned as `Except` errors (`PyErr`), distinguishing
`KeyError` / `IOError`-`OSError` from the module's own `CreationError` and
`DeletionError` taxonomy.
-/

set_option autoImplicit false
set_option maxHeartbeats 1000000

/-- `s.startswith(pre)` over the character lists (kernel-reducible). -/
def strStartsWith (s pre : String) : Bool :=
  List.isPrefixOf pre.toList s.toList

/-- `s.endswith(suf)` over the character lists (kernel-reducible). -/
def strEndsWith (s suf : String) : Bool :=
  List.isSuffixOf suf.toList s.toList

/-- `s.strip()`: drop whitespace from both ends. -/
def pyStrip (s : String) : String :=
  String.mk (((s.toList.dropWhile Char.isWhitespace).reverse.dropWhile Char.isWhitespace).reverse)

/-- Filesystem node: a directory carrying its owning uid, gid and permission
mode bits, or a symbolic link carrying its target path. -/
inductive FsNode where
  | dir (uid gid mode : Nat)
  | symlink (target : String)
deriving DecidableEq

/-- Flat model of the filesystem: an association list from absolute path to
node (first match wins). -/
abbrev FS := List (String × FsNode)

/-- Node stored at path `p`, if any. -/
def FS.lookupPath (fs : FS) (p : String) : Option FsNode :=
  List.lookup p fs

/-- Store node `n` at path `p`, replacing any previous entry. -/
def FS.setPath (fs : FS) (p : String) (n : FsNode) : FS :=
  (p, n) :: fs.filter (fun e => e.1 != p)

/-- Remove the entry at `p` and every entry strictly below it. -/
def FS.removeTree (fs : FS) (p : String) : FS :=
  fs.filter (fun e => !(e.1 == p || strStartsWith e.1 (p ++ "/")))

/-- Models `os.path.exists`: an entry is present at `p`, following a symbolic
link one level (a dangling link does not exist in the `os.path.exists` sense). -/
def pathExists (fs : FS) (p : String) : Bool :=
  match FS.lookupPath fs p with
  | some (.dir _ _ _) => true
  | some (.symlink t) => (FS.lookupPath fs t).isSome
  | none => false

/-- Python exceptions relevant to the module.  `osError` stands for the
`(IOError, OSError)` pair the module catches; `creationError` and
`deletionError` are the module's own `SandboxInterface.Error` subclasses;
`keyError` is raised by `os.environ[...]` on a missing variable. -/
inductive PyErr where
  | keyError (key : String)
  | osError (msg : String)
  | creationError (msg : String)
  | deletionError (msg : String)
deriving DecidableEq

/-- Decidable equality for `Except`, so that concrete runs can be settled by
`decide`. -/
instance {ε α : Type} [DecidableEq ε] [DecidableEq α] : DecidableEq (Except ε α)
  | .ok a, .ok b =>
    if h : a = b then .isTrue (by rw [h]) else .isFalse (by intro hh; cases hh; exact h rfl)
  | .ok _, .error _ => .isFalse (by intro h; cases h)
  | .error _, .ok _ => .isFalse (by intro h; cases h)
  | .error e, .error f =>
    if h : e = f then .isTrue (by rw [h]) else .isFalse (by intro hh; cases hh; exact h rfl)

/-- Rendering of an exception by `'%s' % e` (only the message/key is kept). -/
def pyErrStr : PyErr → String
  | .keyError k => k
  | .osError m => m
  | .creationError m => m
  | .deletionError m => m

/-- Whether an exception belongs to the module's own `SandboxInterface.Error`
taxonomy (`CreationError` / `DeletionError`). -/
def isSandboxError : PyErr → Bool
  | .creationError _ => true
  | .deletionError _ => true
  | _ => false

/-- OS-level actions attempted by the module, in the order attempted.
`spawn` records the argv of a child process (`subprocess.check_output`). -/
inductive OsAction where
  | mkdir (p : String)
  | symlink (target p : String)
  | getpwnam (name : String)
  | chown (p : String) (uid gid : Nat)
  | chmod (p : String) (mode : Nat)
  | spawn (argv : List String)
  | rmtree (p : String)
deriving DecidableEq

/-- The read-only operating-system context of one run: the process
environment, the user/group database, process identity, and error-injection
oracles deciding whether each filesystem primitive raises `OSError` at a given
path.  `useraddExit`/`useraddOutput` abstract the `useradd` child process by
its exit status and captured output (its mutation of the user database is not
observed by any modelled operation). -/
structure World where
  env : List (String × String)
  passwd : List (String × Nat × Nat)
  groups : List (Nat × String)
  cwd : String
  getpassUser : String
  procUid : Nat
  procGid : Nat
  umaskDirMode : Nat
  mkdirErr : String → Option String
  symlinkErr : String → Option String
  chownErr : String → Option String
  chmodErr : String → Option String
  rmtreeErr : String → Option String
  useraddExit : Nat
  useraddOutput : String

/-- `os.environ.get(k, None)` / membership test for `os.environ[k]`. -/
def World.envGet (w : World) (k : String) : Option String :=
  List.lookup k w.env

/-- `pwd.getpwnam(name)` restricted to the fields the module reads:
`(pw_uid, pw_gid)`; `none` models the `KeyError` on a missing account. -/
def getpwnam (w : World) (name : String) : Option (Nat × Nat) :=
  List.lookup name w.passwd

/-- `grp.getgrgid(gid).gr_name`; `none` models the `KeyError` miss. -/
def getgrgid (w : World) (gid : Nat) : Option String :=
  List.lookup gid w.groups

/-- Outcome of one stateful step: the Python result (normal return or raised
exception), the filesystem afterwards, and the cumulative action trace. -/
structure Res where
  result : Except PyErr Unit
  fs : FS
  trace : List OsAction

/-- Models `posixpath.join` for two components. -/
def pathJoin (a b : String) : String :=
  if strStartsWith b "/" then b
  else if a == "" || strEndsWith a "/" then a ++ b
  else a ++ "/" ++ b

/-- Models `posixpath.dirname`: everything up to the last slash, with trailing
slashes stripped unless the result is all slashes. -/
def dirname (p : String) : String :=
  let cs := p.toList
  let idxs := (List.range cs.length).filter (fun i => cs.getD i ' ' == '/')
  match idxs.getLast? with
  | none => ""
  | some i =>
    let head := cs.take (i + 1)
    if head.all (fun c => c == '/') then String.mk head
    else String.mk (((head.reverse).dropWhile (fun c => c == '/')).reverse)

/-- Models `os.path.abspath` for arguments free of `.`/`..` components (the
module only applies it to the literal name `'sandbox'`), i.e. a join with the
current working directory. -/
def absPath (w : World) (p : String) : String :=
  pathJoin w.cwd p

/-- Python truthiness of an optional string: `None` and `''` are falsy. -/
def truthyOpt : Option String → Bool
  | some s => s != ""
  | none => false

/-- Filesystem effect of a successful recursive mkdir at `p`: an existing
entry is left untouched, otherwise a fresh directory appears owned by the
calling process with the mode the umask yields. -/
def mkdirFS (w : World) (p : String) (fs : FS) : FS :=
  match FS.lookupPath fs p with
  | some _ => fs
  | none => FS.setPath fs p (.dir w.procUid w.procGid w.umaskDirMode)

/-- Modelled from the spec: `safe_mkdir` (twitter.common.dirutil), the
low-level recursive directory creation primitive — creates the directory and
any missing parents, tolerates an already-existing directory, raises
`OSError` on other failures (injected via the `mkdirErr` oracle). -/
def safeMkdir (w : World) (p : String) (fs : FS) (tr : List OsAction) : Res :=
  let tr := tr ++ [OsAction.mkdir p]
  match w.mkdirErr p with
  | some m => ⟨.error (.osError m), fs, tr⟩
  | none => ⟨.ok (), mkdirFS w p fs, tr⟩

/-- Models `os.symlink(target, p)`: fails with `OSError` if an entry already
exists at `p` (EEXIST) or on an injected failure. -/
def osSymlink (w : World) (target p : String) (fs : FS) (tr : List OsAction) : Res :=
  let tr := tr ++ [OsAction.symlink target p]
  match w.symlinkErr p with
  | some m => ⟨.error (.osError m), fs, tr⟩
  | none =>
    match FS.lookupPath fs p with
    | some _ => ⟨.error (.osError ("File exists: " ++ p)), fs, tr⟩
    | none => ⟨.ok (), FS.setPath fs p (.symlink target), tr⟩

/-- Models `os.chown(p, uid, gid)`: follows a symlink one level, fails with
`OSError` on a missing path or an injected failure. -/
def osChown (w : World) (p : String) (uid gid : Nat) (fs : FS) (tr : List OsAction) : Res :=
  let tr := tr ++ [OsAction.chown p uid gid]
  match w.chownErr p with
  | some m => ⟨.error (.osError m), fs, tr⟩
  | none =>
    match FS.lookupPath fs p with
    | some (.dir _ _ m) => ⟨.ok (), FS.setPath fs p (.dir uid gid m), tr⟩
    | some (.symlink t) =>
      match FS.lookupPath fs t with
      | some (.dir _ _ m) => ⟨.ok (), FS.setPath fs t (.dir uid gid m), tr⟩
      | _ => ⟨.error (.osError ("No such file or directory: " ++ p)), fs, tr⟩
    | none => ⟨.error (.osError ("No such file or directory: " ++ p)), fs, tr⟩

/-- Models `os.chmod(p, mode)`: follows a symlink one level, fails with
`OSError` on a missing path or an injected failure. -/
def osChmod (w : World) (p : String) (mode : Nat) (fs : FS) (tr : List OsAction) : Res :=
  let tr := tr ++ [OsAction.chmod p mode]
  match w.chmodErr p with
  | some m => ⟨.error (.osError m), fs, tr⟩
  | none =>
    match FS.lookupPath fs p with
    | some (.dir u g _) => ⟨.ok (), FS.setPath fs p (.dir u g mode), tr⟩
    | some (.symlink t) =>
      match FS.lookupPath fs t with
      | some (.dir u g _) => ⟨.ok (), FS.setPath fs t (.dir u g mode), tr⟩
      | _ => ⟨.error (.osError ("No such file or directory: " ++ p)), fs, tr⟩
    | none => ⟨.error (.osError ("No such file or directory: " ++ p)), fs, tr⟩

/-- Modelled from the spec: `safe_rmtree` (twitter.common.dirutil), the
low-level recursive removal primitive — removes the tree rooted at `p`,
"tolerant of `root` not existing (no error if nothing to remove)"; other
failures raise `OSError` (injected via the `rmtreeErr` oracle). -/
def safeRmtree (w : World) (p : String) (fs : FS) (tr : List OsAction) : Res :=
  let tr := tr ++ [OsAction.rmtree p]
  match FS.lookupPath fs p with
  | none => ⟨.ok (), fs, tr⟩
  | some _ =>
    match w.rmtreeErr p with
    | some m => ⟨.error (.osError m), fs, tr⟩
    | none => ⟨.ok (), FS.removeTree fs p, tr⟩

/-- `DirectorySandbox`: `self._root` and `self._user` (optional: the image
variant constructs it with `user=None`). -/
structure DirectorySandbox where
  _root : String
  _user : Option String
deriving DecidableEq

/-- `DirectorySandbox.root` property. -/
def DirectorySandbox.root (sb : DirectorySandbox) : String :=
  sb._root

/-- `DirectorySandbox.chrooted` property. -/
def DirectorySandbox.chrooted (_sb : DirectorySandbox) : Bool :=
  false

/-- `DirectorySandbox.exists`: `os.path.exists(self.root)`. -/
def DirectorySandbox.existsQ (sb : DirectorySandbox) (fs : FS) : Bool :=
  pathExists fs sb._root

/-- `getpass.getuser()` as evaluated once, when the `class DirectorySandbox`
body (hence the `def __init__(self, root, user=getpass.getuser())` line) is
executed at module import time, in the import-time world `wDef`. -/
def directorySandboxDefaultUser (wDef : World) : String :=
  wDef.getpassUser

/-- Constructing `DirectorySandbox(root)` with the `user` argument omitted, at
construction time in world `_wNow`: the default-argument cell captured at the
module's import time (from `wDef`) is used; the construction-time world is not
consulted. -/
def DirectorySandbox.mkDefaultUser (wDef : World) (_wNow : World) (root : String) :
    DirectorySandbox :=
  { _root := root, _user := some (directorySandboxDefaultUser wDef) }

/-- `DirectorySandbox.create`:
mkdir wrapped into `CreationError`; then, if `self._user` is truthy, the
pwd/grp lookups (a `KeyError` miss becomes `CreationError`), then
`os.chown` and `os.chmod(root, 0700)` wrapped into `CreationError`. -/
def DirectorySandbox.create (sb : DirectorySandbox) (w : World) (fs : FS)
    (tr : List OsAction) : Res :=
  match safeMkdir w sb._root fs tr with
  | ⟨.error e, fs1, t1⟩ =>
    ⟨.error (.creationError ("Failed to create the sandbox: " ++ pyErrStr e)), fs1, t1⟩
  | ⟨.ok _, fs1, t1⟩ =>
    if truthyOpt sb._user then
      let u := sb._user.getD ""
      let t1 := t1 ++ [OsAction.getpwnam u]
      match getpwnam w u with
      | none =>
        ⟨.error (.creationError ("Could not create sandbox because user does not exist: " ++ u)),
         fs1, t1⟩
      | some (uid, gid) =>
        match getgrgid w gid with
        | none =>
          ⟨.error (.creationError ("Could not create sandbox because user does not exist: " ++ u)),
           fs1, t1⟩
        | some _grName =>
          match osChown w sb._root uid gid fs1 t1 with
          | ⟨.error e, fs2, t2⟩ =>
            ⟨.error (.creationError ("Failed to chown/chmod the sandbox: " ++ pyErrStr e)), fs2, t2⟩
          | ⟨.ok _, fs2, t2⟩ =>
            match osChmod w sb._root 0o700 fs2 t2 with
            | ⟨.error e, fs3, t3⟩ =>
              ⟨.error (.creationError ("Failed to chown/chmod the sandbox: " ++ pyErrStr e)), fs3, t3⟩
            | ⟨.ok _, fs3, t3⟩ => ⟨.ok (), fs3, t3⟩
    else
      ⟨.ok (), fs1, t1⟩

/-- `DirectorySandbox.destroy`: `safe_rmtree(self.root)` with `(IOError,
OSError)` wrapped into `DeletionError`. -/
def DirectorySandbox.destroy (sb : DirectorySandbox) (w : World) (fs : FS)
    (tr : List OsAction) : Res :=
  match safeRmtree w sb._root fs tr with
  | ⟨.error e, fs1, t1⟩ =>
    ⟨.error (.deletionError ("Failed to destroy sandbox: " ++ pyErrStr e)), fs1, t1⟩
  | ⟨.ok _, fs1, t1⟩ => ⟨.ok (), fs1, t1⟩

/-- `FileSystemImageSandbox.MESOS_DIRECTORY_ENV_VARIABLE`. -/
def MESOS_DIRECTORY_ENV_VARIABLE : String := "MESOS_DIRECTORY"

/-- `FileSystemImageSandbox.MESOS_SANDBOX_ENV_VARIABLE`. -/
def MESOS_SANDBOX_ENV_VARIABLE : String := "MESOS_SANDBOX"

/-- `FileSystemImageSandbox`: `self._mesos_host_sandbox` (the raw
`MESOS_DIRECTORY` environment value), `self._root`, `self._uid` (kept as the
string read from the environment) and the inherited `self._user`. -/
structure FileSystemImageSandbox where
  _mesos_host_sandbox : String
  _root : String
  _uid : Option String
  _user : Option String
deriving DecidableEq

/-- `FileSystemImageSandbox.__init__(sandbox_name, user=None, uid=None)`:
reads `os.environ[MESOS_DIRECTORY]` eagerly (an unwrapped `KeyError` on a
missing variable), sets `_root = os.path.join(_mesos_host_sandbox,
sandbox_name)` and delegates to the directory-sandbox constructor. -/
def FileSystemImageSandbox.init (w : World) (sandbox_name : String)
    (user : Option String) (uid : Option String) :
    Except PyErr FileSystemImageSandbox :=
  match w.envGet MESOS_DIRECTORY_ENV_VARIABLE with
  | none => .error (.keyError MESOS_DIRECTORY_ENV_VARIABLE)
  | some d =>
    .ok { _mesos_host_sandbox := d
          _root := pathJoin d sandbox_name
          _uid := uid
          _user := user }

/-- The directory-sandbox view of an image sandbox (the inherited state the
base-class methods operate on). -/
def FileSystemImageSandbox.toDirectorySandbox (sb : FileSystemImageSandbox) :
    DirectorySandbox :=
  { _root := sb._root, _user := sb._user }

/-- `FileSystemImageSandbox._create_symlinks`: `safe_mkdir` on the parent of
`_mesos_host_sandbox`, then `os.symlink(os.environ[MESOS_SANDBOX],
_mesos_host_sandbox)`; the `try` block catches only `(IOError, OSError)` and
wraps them into `CreationError`, so the `KeyError` from the environment lookup
escapes unwrapped. -/
def FileSystemImageSandbox.createSymlinks (sb : FileSystemImageSandbox)
    (w : World) (fs : FS) (tr : List OsAction) : Res :=
  match safeMkdir w (dirname sb._mesos_host_sandbox) fs tr with
  | ⟨.error e, fs1, t1⟩ =>
    ⟨.error (.creationError ("Failed to create the sandbox root: " ++ pyErrStr e)), fs1, t1⟩
  | ⟨.ok _, fs1, t1⟩ =>
    match w.envGet MESOS_SANDBOX_ENV_VARIABLE with
    | none => ⟨.error (.keyError MESOS_SANDBOX_ENV_VARIABLE), fs1, t1⟩
    | some target =>
      match osSymlink w target sb._mesos_host_sandbox fs1 t1 with
      | ⟨.error e, fs2, t2⟩ =>
        ⟨.error (.creationError ("Failed to create the sandbox root: " ++ pyErrStr e)), fs2, t2⟩
      | ⟨.ok _, fs2, t2⟩ => ⟨.ok (), fs2, t2⟩

/-- `FileSystemImageSandbox._try_create_user`: if `self._uid` is truthy, read
`os.environ[MESOS_SANDBOX]` (outside any handler: a missing variable raises an
unwrapped `KeyError`) and run `useradd -d <home> -l -m -u <uid> <user>` via
`subprocess.check_output`; a nonzero exit (`CalledProcessError`) becomes
`CreationError` carrying the exit status and captured output.  If `self._uid`
is falsy, nothing is spawned.  (`%s` renders an absent user as `"None"`; the
source would fail earlier on a `None` argv element, a corner no claim
exercises.) -/
def FileSystemImageSandbox.tryCreateUser (sb : FileSystemImageSandbox)
    (w : World) (fs : FS) (tr : List OsAction) : Res :=
  if truthyOpt sb._uid then
    match w.envGet MESOS_SANDBOX_ENV_VARIABLE with
    | none => ⟨.error (.keyError MESOS_SANDBOX_ENV_VARIABLE), fs, tr⟩
    | some home_dir =>
      let u := sb._uid.getD ""
      let userArg := sb._user.getD "None"
      let tr := tr ++ [OsAction.spawn ["useradd", "-d", home_dir, "-l", "-m", "-u", u, userArg]]
      if w.useraddExit == 0 then ⟨.ok (), fs, tr⟩
      else
        ⟨.error (.creationError ("Failed to create user " ++ userArg ++
            ", useradd exited with code " ++ toString w.useraddExit ++ ".  " ++ w.useraddOutput)),
         fs, tr⟩
  else ⟨.ok (), fs, tr⟩

/-- `FileSystemImageSandbox.create`: `self._create_symlinks()`, then
`self._try_create_user()`, then `super().create()`; a raised exception in an
earlier step propagates and skips the later steps. -/
def FileSystemImageSandbox.create (sb : FileSystemImageSandbox) (w : World)
    (fs : FS) (tr : List OsAction) : Res :=
  match sb.createSymlinks w fs tr with
  | ⟨.error e, fs1, t1⟩ => ⟨.error e, fs1, t1⟩
  | ⟨.ok _, fs1, t1⟩ =>
    match sb.tryCreateUser w fs1 t1 with
    | ⟨.error e, fs2, t2⟩ => ⟨.error e, fs2, t2⟩
    | ⟨.ok _, fs2, t2⟩ => DirectorySandbox.create sb.toDirectorySandbox w fs2 t2

/-- `FileSystemImageSandbox` inherits `destroy` unchanged from
`DirectorySandbox`. -/
def FileSystemImageSandbox.destroy (sb : FileSystemImageSandbox) (w : World)
    (fs : FS) (tr : List OsAction) : Res :=
  DirectorySandbox.destroy sb.toDirectorySandbox w fs tr

/-- Truthiness of the thrift `container.mesos.image` field. -/
structure MesosContainerInfo where
  image : Bool
deriving DecidableEq

/-- The task's container descriptor: truthiness of `container.docker`, and the
optional `container.mesos` sub-structure. -/
structure ContainerInfo where
  docker : Bool
  mesos : Option MesosContainerInfo
deriving DecidableEq

/-- `AssignedTask` restricted to the fields the module reads:
`assigned_task.task.job.role` and `assigned_task.task.container`. -/
structure AssignedTask where
  role : String
  container : ContainerInfo
deriving DecidableEq

/-- The two concrete sandbox variants a provider can return. -/
inductive SandboxVariant where
  | dir (sb : DirectorySandbox)
  | fsImage (sb : FileSystemImageSandbox)
deriving DecidableEq

/-- `DefaultSandboxProvider.SANDBOX_NAME`. -/
def SANDBOX_NAME : String := "sandbox"

/-- `DefaultSandboxProvider.MESOS_COMMAND_UID_ENV_VARIABLE`. -/
def MESOS_COMMAND_UID_ENV_VARIABLE : String := "MESOS_COMMAND_UID"

/-- `SandboxProvider._get_sandbox_user`. -/
def _get_sandbox_user (t : AssignedTask) : String :=
  t.role

/-- `DefaultSandboxProvider.from_assigned_task`.  In the docker branch the
source reads and strips `MESOS_COMMAND_UID` and sets `user` when it is truthy,
but then constructs `FileSystemImageSandbox(self.SANDBOX_NAME, user)` — the
stripped uid (kept here as the unused `_uidStripped`) is not passed, so the
constructed sandbox's `_uid` is always `None`. -/
def from_assigned_task (w : World) (t : AssignedTask) :
    Except PyErr SandboxVariant :=
  let container := t.container
  if container.docker then
    let uid0 := w.envGet MESOS_COMMAND_UID_ENV_VARIABLE
    let user : Option String := if truthyOpt uid0 then some (_get_sandbox_user t) else none
    let _uidStripped : Option String :=
      if truthyOpt uid0 then uid0.map pyStrip else uid0
    (FileSystemImageSandbox.init w SANDBOX_NAME user none).map SandboxVariant.fsImage
  else if (match container.mesos with | some m => m.image | none => false) then
    (FileSystemImageSandbox.init w SANDBOX_NAME (some (_get_sandbox_user t)) none).map
      SandboxVariant.fsImage
  else
    .ok (.dir { _root := absPath w SANDBOX_NAME, _user := some (_get_sandbox_user t) })

/-- Error-injection oracle that never fails. -/
def noErr : String → Option String := fun _ => none

/-- A benign concrete world: both Mesos environment variables set, a small
user/group database, no injected failures, `useradd` succeeding. -/
def baseWorld : World :=
  { env := [("MESOS_DIRECTORY", "/var/lib/mesos/run1"), ("MESOS_SANDBOX", "/mnt/mesos/sandbox")],
    passwd := [("www-data", 33, 33), ("root", 0, 0)],
    groups := [(33, "www-data"), (0, "root")],
    cwd := "/home/worker",
    getpassUser := "root",
    procUid := 0, procGid := 0,
    umaskDirMode := 0o755,
    mkdirErr := noErr, symlinkErr := noErr, chownErr := noErr, chmodErr := noErr,
    rmtreeErr := noErr,
    useraddExit := 0, useraddOutput := "" }

/-- A task whose container is docker-style. -/
def dockerTask : AssignedTask :=
  { role := "www-data", container := { docker := true, mesos := none } }

/-- A task whose container specifies a filesystem image. -/
def imageTask : AssignedTask :=
  { role := "www-data", container := { docker := false, mesos := some { image := true } } }

/-- A task with no container. -/
def bareTask : AssignedTask :=
  { role := "www-data", container := { docker := false, mesos := some { image := false } } }

/-- `baseWorld` with the command-uid environment variable also set. -/
def cmdUidWorld : World :=
  { baseWorld with env := ("MESOS_COMMAND_UID", "10001") :: baseWorld.env }

/-- `baseWorld` with `MESOS_SANDBOX` removed from the environment. -/
def noMesosSandboxWorld : World :=
  { baseWorld with env := [("MESOS_DIRECTORY", "/var/lib/mesos/run1")] }

/-- `baseWorld` with an empty environment. -/
def emptyEnvWorld : World :=
  { baseWorld with env := [] }

/-- `baseWorld` with recursive mkdir failing at `/var/lib/mesos` (e.g. a
permissions conflict on the symlink parent). -/
def mkdirFailWorld : World :=
  { baseWorld with
      mkdirErr := fun p => if p == "/var/lib/mesos" then some "Permission denied" else none }

/-- `baseWorld` with the `useradd` child process exiting nonzero. -/
def useraddFailWorld : World :=
  { baseWorld with useraddExit := 4, useraddOutput := "useradd: UID 10001 is not unique" }

/-- `baseWorld` with an empty system user database. -/
def noPasswdWorld : World :=
  { baseWorld with passwd := [] }

/-- The image sandbox the benign world's provider yields for an image task. -/
def imageSb : FileSystemImageSandbox :=
  { _mesos_host_sandbox := "/var/lib/mesos/run1"
    _root := "/var/lib/mesos/run1/sandbox"
    _uid := none
    _user := some "www-data" }

/-- `imageSb` with a numeric uid set. -/
def imageSbUid : FileSystemImageSandbox :=
  { imageSb with _uid := some "10001" }

/-- A plain directory sandbox owned by an existing user. -/
def dirSb : DirectorySandbox :=
  { _root := "/home/worker/sandbox", _user := some "www-data" }

/-- A plain directory sandbox owned by a user absent from the database. -/
def ghostSb : DirectorySandbox :=
  { _root := "/home/worker/sandbox", _user := some "ghost" }

/-- A plain directory sandbox with no owning user. -/
def noUserSb : DirectorySandbox :=
  { _root := "/home/worker/sandbox", _user := none }
theorem lookup_filter_kept {β : Type} (q : String) (f : String × β → Bool)
    (hf : ∀ v, f (q, v) = true) :
    ∀ l : List (String × β), List.lookup q (l.filter f) = List.lookup q l := by
  intro l
  induction l with
  | nil => rfl
  | cons e t ih =>
    obtain ⟨k, v⟩ := e
    by_cases hqk : q = k
    · subst hqk
      rw [List.filter_cons, hf v]
      simp [List.lookup]
    · have hbeq : (q == k) = false := by simp [hqk]
      rw [List.filter_cons]
      cases hfk : f (k, v) <;> simp [List.lookup, hbeq, ih, hfk]

theorem lookup_filter_dropped {β : Type} (q : String) (f : String × β → Bool)
    (hf : ∀ v, f (q, v) = false) :
    ∀ l : List (String × β), List.lookup q (l.filter f) = none := by
  intro l
  induction l with
  | nil => rfl
  | cons e t ih =>
    obtain ⟨k, v⟩ := e
    by_cases hqk : q = k
    · subst hqk
      rw [List.filter_cons, hf v]
      simpa using ih
    · have hbeq : (q == k) = false := by simp [hqk]
      rw [List.filter_cons]
      cases hfk : f (k, v) <;> simp [List.lookup, hbeq, ih, hfk]

theorem FS.lookupPath_setPath_self (fs : FS) (p : String) (n : FsNode) :
    (fs.setPath p n).lookupPath p = some n := by
  simp [FS.setPath, FS.lookupPath, List.lookup]

theorem FS.lookupPath_setPath_ne (fs : FS) {p q : String} (n : FsNode) (h : q ≠ p) :
    (fs.setPath p n).lookupPath q = fs.lookupPath q := by
  have hbeq : (q == p) = false := by simp [h]
  simp only [FS.setPath, FS.lookupPath, List.lookup, hbeq]
  exact lookup_filter_kept q _ (by intro v; simp [h]) fs

theorem FS.lookupPath_removeTree_self (fs : FS) (p : String) :
    (fs.removeTree p).lookupPath p = none := by
  exact lookup_filter_dropped p _ (by intro v; simp) fs
theorem safeMkdir_ok {w : World} {p : String} (h : w.mkdirErr p = none)
    (fs : FS) (tr : List OsAction) :
    safeMkdir w p fs tr = ⟨.ok (), mkdirFS w p fs, tr ++ [.mkdir p]⟩ := by
  unfold safeMkdir; rw [h]

theorem safeMkdir_err {w : World} {p m : String} (h : w.mkdirErr p = some m)
    (fs : FS) (tr : List OsAction) :
    safeMkdir w p fs tr = ⟨.error (.osError m), fs, tr ++ [.mkdir p]⟩ := by
  unfold safeMkdir; rw [h]

theorem safeMkdir_trace (w : World) (p : String) (fs : FS) (tr : List OsAction) :
    (safeMkdir w p fs tr).trace = tr ++ [.mkdir p] := by
  unfold safeMkdir; split <;> rfl

theorem mkdirFS_fresh {w : World} {p : String} {fs : FS} (h : FS.lookupPath fs p = none) :
    mkdirFS w p fs = fs.setPath p (.dir w.procUid w.procGid w.umaskDirMode) := by
  unfold mkdirFS; rw [h]

theorem lookupPath_mkdirFS_self (w : World) (p : String) (fs : FS) :
    (mkdirFS w p fs).lookupPath p ≠ none := by
  unfold mkdirFS
  cases h : FS.lookupPath fs p with
  | some n => simp [h]
  | none => simp [h, FS.lookupPath_setPath_self]

theorem osSymlink_ok {w : World} {target p : String} {fs : FS}
    (he : w.symlinkErr p = none) (hl : FS.lookupPath fs p = none) (tr : List OsAction) :
    osSymlink w target p fs tr = ⟨.ok (), fs.setPath p (.symlink target), tr ++ [.symlink target p]⟩ := by
  unfold osSymlink; rw [he, hl]

theorem osSymlink_trace (w : World) (target p : String) (fs : FS) (tr : List OsAction) :
    (osSymlink w target p fs tr).trace = tr ++ [.symlink target p] := by
  unfold osSymlink; split <;> (try split) <;> rfl

theorem osChown_ok_dir {w : World} {p : String} {fs : FS} {a b mm : Nat}
    (he : w.chownErr p = none) (hl : FS.lookupPath fs p = some (.dir a b mm))
    (uid gid : Nat) (tr : List OsAction) :
    osChown w p uid gid fs tr = ⟨.ok (), fs.setPath p (.dir uid gid mm), tr ++ [.chown p uid gid]⟩ := by
  unfold osChown; rw [he, hl]

theorem osChown_trace (w : World) (p : String) (uid gid : Nat) (fs : FS) (tr : List OsAction) :
    (osChown w p uid gid fs tr).trace = tr ++ [.chown p uid gid] := by
  unfold osChown; split <;> (try split) <;> (try split) <;> rfl

theorem osChmod_ok_dir {w : World} {p : String} {fs : FS} {a b mm : Nat}
    (he : w.chmodErr p = none) (hl : FS.lookupPath fs p = some (.dir a b mm))
    (mode : Nat) (tr : List OsAction) :
    osChmod w p mode fs tr = ⟨.ok (), fs.setPath p (.dir a b mode), tr ++ [.chmod p mode]⟩ := by
  unfold osChmod; rw [he, hl]

theorem osChmod_trace (w : World) (p : String) (mode : Nat) (fs : FS) (tr : List OsAction) :
    (osChmod w p mode fs tr).trace = tr ++ [.chmod p mode] := by
  unfold osChmod; split <;> (try split) <;> (try split) <;> rfl

theorem safeRmtree_absent {w : World} {p : String} {fs : FS}
    (h : FS.lookupPath fs p = none) (tr : List OsAction) :
    safeRmtree w p fs tr = ⟨.ok (), fs, tr ++ [.rmtree p]⟩ := by
  unfold safeRmtree; rw [h]

theorem safeRmtree_present_ok {w : World} {p : String} {fs : FS} {n : FsNode}
    (hl : FS.lookupPath fs p = some n) (he : w.rmtreeErr p = none) (tr : List OsAction) :
    safeRmtree w p fs tr = ⟨.ok (), fs.removeTree p, tr ++ [.rmtree p]⟩ := by
  unfold safeRmtree; rw [hl, he]

theorem truthyOpt_some {u : String} (h : u ≠ "") : truthyOpt (some u) = true := by
  simp [truthyOpt, h]

theorem osSymlink_err {w : World} {p m : String} (h : w.symlinkErr p = some m)
    (target : String) (fs : FS) (tr : List OsAction) :
    osSymlink w target p fs tr = ⟨.error (.osError m), fs, tr ++ [.symlink target p]⟩ := by
  unfold osSymlink; rw [h]

theorem osSymlink_exists {w : World} {p : String} {fs : FS} {n : FsNode}
    (he : w.symlinkErr p = none) (hl : FS.lookupPath fs p = some n)
    (target : String) (tr : List OsAction) :
    osSymlink w target p fs tr =
      ⟨.error (.osError ("File exists: " ++ p)), fs, tr ++ [.symlink target p]⟩ := by
  unfold osSymlink; rw [he, hl]

theorem osChown_err {w : World} {p m : String} (h : w.chownErr p = some m)
    (uid gid : Nat) (fs : FS) (tr : List OsAction) :
    osChown w p uid gid fs tr = ⟨.error (.osError m), fs, tr ++ [.chown p uid gid]⟩ := by
  unfold osChown; rw [h]

theorem osChmod_err {w : World} {p m : String} (h : w.chmodErr p = some m)
    (mode : Nat) (fs : FS) (tr : List OsAction) :
    osChmod w p mode fs tr = ⟨.error (.osError m), fs, tr ++ [.chmod p mode]⟩ := by
  unfold osChmod; rw [h]

theorem safeRmtree_present_err {w : World} {p m : String} {fs : FS} {n : FsNode}
    (hl : FS.lookupPath fs p = some n) (he : w.rmtreeErr p = some m) (tr : List OsAction) :
    safeRmtree w p fs tr = ⟨.error (.osError m), fs, tr ++ [.rmtree p]⟩ := by
  unfold safeRmtree; rw [hl, he]

theorem DirectorySandbox.create_mkdirErr {w : World} {sb : DirectorySandbox} {m : String}
    (h : w.mkdirErr sb._root = some m) (fs : FS) (tr : List OsAction) :
    sb.create w fs tr =
      ⟨.error (.creationError ("Failed to create the sandbox: " ++ m)), fs,
       tr ++ [.mkdir sb._root]⟩ := by
  unfold DirectorySandbox.create
  rw [safeMkdir_err h]
  rfl

theorem DirectorySandbox.create_noUser {w : World} {sb : DirectorySandbox}
    (hu : truthyOpt sb._user = false) (hmk : w.mkdirErr sb._root = none)
    (fs : FS) (tr : List OsAction) :
    sb.create w fs tr = ⟨.ok (), mkdirFS w sb._root fs, tr ++ [.mkdir sb._root]⟩ := by
  unfold DirectorySandbox.create
  rw [safeMkdir_ok hmk]
  simp [hu]

theorem DirectorySandbox.create_userMiss {w : World} {sb : DirectorySandbox} {u : String}
    (hu : sb._user = some u) (hne : u ≠ "")
    (hmk : w.mkdirErr sb._root = none) (hpw : getpwnam w u = none)
    (fs : FS) (tr : List OsAction) :
    sb.create w fs tr =
      ⟨.error (.creationError ("Could not create sandbox because user does not exist: " ++ u)),
       mkdirFS w sb._root fs, tr ++ [.mkdir sb._root, .getpwnam u]⟩ := by
  unfold DirectorySandbox.create
  rw [safeMkdir_ok hmk, hu]
  simp [truthyOpt_some hne, hpw, List.append_assoc]

theorem DirectorySandbox.create_grMiss {w : World} {sb : DirectorySandbox} {u : String}
    {uid gid : Nat}
    (hu : sb._user = some u) (hne : u ≠ "")
    (hmk : w.mkdirErr sb._root = none)
    (hpw : getpwnam w u = some (uid, gid)) (hgr : getgrgid w gid = none)
    (fs : FS) (tr : List OsAction) :
    sb.create w fs tr =
      ⟨.error (.creationError ("Could not create sandbox because user does not exist: " ++ u)),
       mkdirFS w sb._root fs, tr ++ [.mkdir sb._root, .getpwnam u]⟩ := by
  unfold DirectorySandbox.create
  rw [safeMkdir_ok hmk, hu]
  simp [truthyOpt_some hne, hpw, hgr, List.append_assoc]

theorem DirectorySandbox.create_chownErr {w : World} {sb : DirectorySandbox}
    {u gname m : String} {uid gid : Nat}
    (hu : sb._user = some u) (hne : u ≠ "")
    (hmk : w.mkdirErr sb._root = none)
    (hpw : getpwnam w u = some (uid, gid)) (hgr : getgrgid w gid = some gname)
    (hco : w.chownErr sb._root = some m)
    (fs : FS) (tr : List OsAction) :
    sb.create w fs tr =
      ⟨.error (.creationError ("Failed to chown/chmod the sandbox: " ++ m)),
       mkdirFS w sb._root fs,
       tr ++ [.mkdir sb._root, .getpwnam u, .chown sb._root uid gid]⟩ := by
  unfold DirectorySandbox.create
  rw [safeMkdir_ok hmk, hu]
  simp [truthyOpt_some hne, hpw, hgr, osChown_err hco, pyErrStr, List.append_assoc]

theorem DirectorySandbox.create_chmodErr {w : World} {sb : DirectorySandbox}
    {u gname m : String} {uid gid : Nat} {fs : FS}
    (hu : sb._user = some u) (hne : u ≠ "")
    (hmk : w.mkdirErr sb._root = none)
    (hpw : getpwnam w u = some (uid, gid)) (hgr : getgrgid w gid = some gname)
    (hco : w.chownErr sb._root = none) (hcm : w.chmodErr sb._root = some m)
    (hfresh : FS.lookupPath fs sb._root = none) (tr : List OsAction) :
    sb.create w fs tr =
      ⟨.error (.creationError ("Failed to chown/chmod the sandbox: " ++ m)),
       (fs.setPath sb._root (.dir w.procUid w.procGid w.umaskDirMode)).setPath sb._root
         (.dir uid gid w.umaskDirMode),
       tr ++ [.mkdir sb._root, .getpwnam u, .chown sb._root uid gid,
              .chmod sb._root 0o700]⟩ := by
  unfold DirectorySandbox.create
  rw [safeMkdir_ok hmk, hu, mkdirFS_fresh hfresh]
  simp [truthyOpt_some hne, hpw, hgr,
        osChown_ok_dir hco (FS.lookupPath_setPath_self fs sb._root _),
        osChmod_err hcm, pyErrStr, List.append_assoc]

theorem DirectorySandbox.create_user_ok {w : World} {sb : DirectorySandbox}
    {u gname : String} {uid gid : Nat} {fs : FS}
    (hu : sb._user = some u) (hne : u ≠ "")
    (hmk : w.mkdirErr sb._root = none)
    (hpw : getpwnam w u = some (uid, gid)) (hgr : getgrgid w gid = some gname)
    (hco : w.chownErr sb._root = none) (hcm : w.chmodErr sb._root = none)
    (hfresh : FS.lookupPath fs sb._root = none) (tr : List OsAction) :
    sb.create w fs tr =
      ⟨.ok (),
       ((fs.setPath sb._root (.dir w.procUid w.procGid w.umaskDirMode)).setPath sb._root
          (.dir uid gid w.umaskDirMode)).setPath sb._root (.dir uid gid 0o700),
       tr ++ [.mkdir sb._root, .getpwnam u, .chown sb._root uid gid,
              .chmod sb._root 0o700]⟩ := by
  unfold DirectorySandbox.create
  rw [safeMkdir_ok hmk, hu, mkdirFS_fresh hfresh]
  simp [truthyOpt_some hne, hpw, hgr,
        osChown_ok_dir hco (FS.lookupPath_setPath_self fs sb._root _),
        osChmod_ok_dir hcm (FS.lookupPath_setPath_self _ sb._root _),
        List.append_assoc]

theorem DirectorySandbox.destroy_absent {w : World} {sb : DirectorySandbox} {fs : FS}
    (h : FS.lookupPath fs sb._root = none) (tr : List OsAction) :
    sb.destroy w fs tr = ⟨.ok (), fs, tr ++ [.rmtree sb._root]⟩ := by
  unfold DirectorySandbox.destroy
  rw [safeRmtree_absent h]

theorem DirectorySandbox.destroy_present_ok {w : World} {sb : DirectorySandbox} {fs : FS}
    {n : FsNode} (hl : FS.lookupPath fs sb._root = some n) (he : w.rmtreeErr sb._root = none)
    (tr : List OsAction) :
    sb.destroy w fs tr = ⟨.ok (), fs.removeTree sb._root, tr ++ [.rmtree sb._root]⟩ := by
  unfold DirectorySandbox.destroy
  rw [safeRmtree_present_ok hl he]

theorem DirectorySandbox.destroy_present_err {w : World} {sb : DirectorySandbox} {fs : FS}
    {n : FsNode} {m : String}
    (hl : FS.lookupPath fs sb._root = some n) (he : w.rmtreeErr sb._root = some m)
    (tr : List OsAction) :
    sb.destroy w fs tr =
      ⟨.error (.deletionError ("Failed to destroy sandbox: " ++ m)), fs,
       tr ++ [.rmtree sb._root]⟩ := by
  unfold DirectorySandbox.destroy
  rw [safeRmtree_present_err hl he]
  rfl

theorem FileSystemImageSandbox.createSymlinks_mkdirErr {w : World}
    {sb : FileSystemImageSandbox} {m : String}
    (h : w.mkdirErr (dirname sb._mesos_host_sandbox) = some m)
    (fs : FS) (tr : List OsAction) :
    sb.createSymlinks w fs tr =
      ⟨.error (.creationError ("Failed to create the sandbox root: " ++ m)), fs,
       tr ++ [.mkdir (dirname sb._mesos_host_sandbox)]⟩ := by
  unfold FileSystemImageSandbox.createSymlinks
  rw [safeMkdir_err h]
  rfl

theorem FileSystemImageSandbox.createSymlinks_envMiss {w : World}
    {sb : FileSystemImageSandbox}
    (hmk : w.mkdirErr (dirname sb._mesos_host_sandbox) = none)
    (henv : w.envGet MESOS_SANDBOX_ENV_VARIABLE = none)
    (fs : FS) (tr : List OsAction) :
    sb.createSymlinks w fs tr =
      ⟨.error (.keyError MESOS_SANDBOX_ENV_VARIABLE),
       mkdirFS w (dirname sb._mesos_host_sandbox) fs,
       tr ++ [.mkdir (dirname sb._mesos_host_sandbox)]⟩ := by
  unfold FileSystemImageSandbox.createSymlinks
  rw [safeMkdir_ok hmk]
  simp [henv]

theorem FileSystemImageSandbox.createSymlinks_linkErr {w : World}
    {sb : FileSystemImageSandbox} {tgt m : String}
    (hmk : w.mkdirErr (dirname sb._mesos_host_sandbox) = none)
    (henv : w.envGet MESOS_SANDBOX_ENV_VARIABLE = some tgt)
    (hse : w.symlinkErr sb._mesos_host_sandbox = some m)
    (fs : FS) (tr : List OsAction) :
    sb.createSymlinks w fs tr =
      ⟨.error (.creationError ("Failed to create the sandbox root: " ++ m)),
       mkdirFS w (dirname sb._mesos_host_sandbox) fs,
       tr ++ [.mkdir (dirname sb._mesos_host_sandbox),
              .symlink tgt sb._mesos_host_sandbox]⟩ := by
  unfold FileSystemImageSandbox.createSymlinks
  rw [safeMkdir_ok hmk]
  simp [henv, osSymlink_err hse, pyErrStr, List.append_assoc]

theorem FileSystemImageSandbox.createSymlinks_ok {w : World}
    {sb : FileSystemImageSandbox} {tgt : String} {fs : FS}
    (hmk : w.mkdirErr (dirname sb._mesos_host_sandbox) = none)
    (henv : w.envGet MESOS_SANDBOX_ENV_VARIABLE = some tgt)
    (hse : w.symlinkErr sb._mesos_host_sandbox = none)
    (hl : FS.lookupPath (mkdirFS w (dirname sb._mesos_host_sandbox) fs)
            sb._mesos_host_sandbox = none)
    (tr : List OsAction) :
    sb.createSymlinks w fs tr =
      ⟨.ok (),
       (mkdirFS w (dirname sb._mesos_host_sandbox) fs).setPath sb._mesos_host_sandbox
         (.symlink tgt),
       tr ++ [.mkdir (dirname sb._mesos_host_sandbox),
              .symlink tgt sb._mesos_host_sandbox]⟩ := by
  unfold FileSystemImageSandbox.createSymlinks
  rw [safeMkdir_ok hmk]
  simp [henv, osSymlink_ok hse hl, List.append_assoc]

theorem FileSystemImageSandbox.tryCreateUser_falsy {w : World}
    {sb : FileSystemImageSandbox} (h : truthyOpt sb._uid = false)
    (fs : FS) (tr : List OsAction) :
    sb.tryCreateUser w fs tr = ⟨.ok (), fs, tr⟩ := by
  unfold FileSystemImageSandbox.tryCreateUser
  simp [h]

theorem FileSystemImageSandbox.tryCreateUser_envMiss {w : World}
    {sb : FileSystemImageSandbox} {u : String}
    (hu : sb._uid = some u) (hne : u ≠ "")
    (henv : w.envGet MESOS_SANDBOX_ENV_VARIABLE = none)
    (fs : FS) (tr : List OsAction) :
    sb.tryCreateUser w fs tr = ⟨.error (.keyError MESOS_SANDBOX_ENV_VARIABLE), fs, tr⟩ := by
  unfold FileSystemImageSandbox.tryCreateUser
  rw [hu]
  simp [truthyOpt_some hne, henv]

theorem FileSystemImageSandbox.tryCreateUser_ok {w : World}
    {sb : FileSystemImageSandbox} {u home : String}
    (hu : sb._uid = some u) (hne : u ≠ "")
    (henv : w.envGet MESOS_SANDBOX_ENV_VARIABLE = some home)
    (hexit : w.useraddExit = 0)
    (fs : FS) (tr : List OsAction) :
    sb.tryCreateUser w fs tr =
      ⟨.ok (), fs,
       tr ++ [.spawn ["useradd", "-d", home, "-l", "-m", "-u", u, sb._user.getD "None"]]⟩ := by
  unfold FileSystemImageSandbox.tryCreateUser
  rw [hu]
  simp [truthyOpt_some hne, henv, hexit]

theorem FileSystemImageSandbox.tryCreateUser_fail {w : World}
    {sb : FileSystemImageSandbox} {u home : String}
    (hu : sb._uid = some u) (hne : u ≠ "")
    (henv : w.envGet MESOS_SANDBOX_ENV_VARIABLE = some home)
    (hexit : w.useraddExit ≠ 0)
    (fs : FS) (tr : List OsAction) :
    sb.tryCreateUser w fs tr =
      ⟨.error (.creationError ("Failed to create user " ++ sb._user.getD "None" ++
          ", useradd exited with code " ++ toString w.useraddExit ++ ".  " ++ w.useraddOutput)),
       fs,
       tr ++ [.spawn ["useradd", "-d", home, "-l", "-m", "-u", u, sb._user.getD "None"]]⟩ := by
  unfold FileSystemImageSandbox.tryCreateUser
  rw [hu]
  simp [truthyOpt_some hne, henv, hexit]

theorem FileSystemImageSandbox.create_symErr {w : World} {sb : FileSystemImageSandbox}
    {fs : FS} {tr : List OsAction} {e : PyErr}
    (h : (sb.createSymlinks w fs tr).result = .error e) :
    sb.create w fs tr = sb.createSymlinks w fs tr := by
  unfold FileSystemImageSandbox.create
  cases hs : sb.createSymlinks w fs tr with
  | mk r f t =>
    cases r with
    | ok a => rw [hs] at h; simp [Res.result] at h
    | error e2 => rfl

theorem FileSystemImageSandbox.create_tcuErr {w : World} {sb : FileSystemImageSandbox}
    {fs : FS} {tr : List OsAction} {e : PyErr}
    (hsym : (sb.createSymlinks w fs tr).result = .ok ())
    (htcu : (sb.tryCreateUser w (sb.createSymlinks w fs tr).fs
               (sb.createSymlinks w fs tr).trace).result = .error e) :
    sb.create w fs tr =
      sb.tryCreateUser w (sb.createSymlinks w fs tr).fs (sb.createSymlinks w fs tr).trace := by
  unfold FileSystemImageSandbox.create
  cases hs : sb.createSymlinks w fs tr with
  | mk r f t =>
    rw [hs] at hsym htcu
    dsimp only at hsym htcu ⊢
    cases r with
    | error e2 => simp at hsym
    | ok a =>
      cases ht : sb.tryCreateUser w f t with
      | mk r2 f2 t2 =>
        rw [ht] at htcu
        dsimp only at htcu ⊢
        cases r2 with
        | ok a2 => simp at htcu
        | error e3 => rw [ht]

theorem FileSystemImageSandbox.create_delegate {w : World} {sb : FileSystemImageSandbox}
    {fs : FS} {tr : List OsAction}
    (hsym : (sb.createSymlinks w fs tr).result = .ok ())
    (htcu : (sb.tryCreateUser w (sb.createSymlinks w fs tr).fs
               (sb.createSymlinks w fs tr).trace).result = .ok ()) :
    sb.create w fs tr =
      DirectorySandbox.create sb.toDirectorySandbox w
        (sb.tryCreateUser w (sb.createSymlinks w fs tr).fs
          (sb.createSymlinks w fs tr).trace).fs
        (sb.tryCreateUser w (sb.createSymlinks w fs tr).fs
          (sb.createSymlinks w fs tr).trace).trace := by
  unfold FileSystemImageSandbox.create
  cases hs : sb.createSymlinks w fs tr with
  | mk r f t =>
    rw [hs] at hsym htcu
    dsimp only at hsym htcu ⊢
    cases r with
    | error e2 => simp at hsym
    | ok a =>
      cases ht : sb.tryCreateUser w f t with
      | mk r2 f2 t2 =>
        rw [ht] at htcu
        dsimp only at htcu ⊢
        cases r2 with
        | error e3 => simp at htcu
        | ok a2 => rw [ht]

theorem DirectorySandbox.create_trace_cases (sb : DirectorySandbox) (w : World)
    (fs : FS) (tr : List OsAction) :
    (sb.create w fs tr).trace = tr ++ [.mkdir sb._root] ∨
    ((sb.create w fs tr).trace = tr ++ [.mkdir sb._root, .getpwnam (sb._user.getD "")] ∨
     (∃ uid gid,
        (sb.create w fs tr).trace =
          tr ++ [.mkdir sb._root, .getpwnam (sb._user.getD ""), .chown sb._root uid gid] ∨
        (sb.create w fs tr).trace =
          tr ++ [.mkdir sb._root, .getpwnam (sb._user.getD ""), .chown sb._root uid gid,
                 .chmod sb._root 0o700])) := by
  unfold DirectorySandbox.create
  split
  next e fs1 t1 heq =>
    left
    have h2 := congrArg Res.trace heq
    rw [safeMkdir_trace] at h2
    exact h2.symm ▸ rfl
  next a fs1 t1 heq =>
    have ht1 : t1 = tr ++ [OsAction.mkdir sb._root] := by
      have h2 := congrArg Res.trace heq
      rw [safeMkdir_trace] at h2
      exact h2.symm
    subst ht1
    split
    · dsimp only
      split
      · right; left; simp
      · next uid gid _ =>
        split
        · right; left; simp
        · split
          next e fs2 t2 heq2 =>
            have ht2 := congrArg Res.trace heq2
            rw [osChown_trace] at ht2
            right; right
            exact ⟨uid, gid, Or.inl (by dsimp only at ht2; simp [← ht2])⟩
          next a2 fs2 t2 heq2 =>
            have ht2 := congrArg Res.trace heq2
            rw [osChown_trace] at ht2
            split
            next e3 fs3 t3 heq3 =>
              have ht3 := congrArg Res.trace heq3
              rw [osChmod_trace] at ht3
              right; right
              exact ⟨uid, gid, Or.inr (by dsimp only at ht2 ht3; subst ht3; simp [← ht2])⟩
            next a3 fs3 t3 heq3 =>
              have ht3 := congrArg Res.trace heq3
              rw [osChmod_trace] at ht3
              right; right
              exact ⟨uid, gid, Or.inr (by dsimp only at ht2 ht3; subst ht3; simp [← ht2])⟩
    · left; simp

theorem FileSystemImageSandbox.createSymlinks_trace_cases
    (sb : FileSystemImageSandbox) (w : World) (fs : FS) (tr : List OsAction) :
    (sb.createSymlinks w fs tr).trace = tr ++ [.mkdir (dirname sb._mesos_host_sandbox)] ∨
    (∃ tgt, w.envGet MESOS_SANDBOX_ENV_VARIABLE = some tgt ∧
      (sb.createSymlinks w fs tr).trace =
        tr ++ [.mkdir (dirname sb._mesos_host_sandbox),
               .symlink tgt sb._mesos_host_sandbox]) := by
  unfold FileSystemImageSandbox.createSymlinks
  split
  next e fs1 t1 heq =>
    left
    have h2 := congrArg Res.trace heq
    rw [safeMkdir_trace] at h2
    exact h2.symm ▸ rfl
  next a fs1 t1 heq =>
    have ht1 : t1 = tr ++ [OsAction.mkdir (dirname sb._mesos_host_sandbox)] := by
      have h2 := congrArg Res.trace heq
      rw [safeMkdir_trace] at h2
      exact h2.symm
    subst ht1
    split
    · left; rfl
    next tgt henv =>
      split
      next e fs2 t2 heq2 =>
        have ht2 := congrArg Res.trace heq2
        rw [osSymlink_trace] at ht2
        dsimp only at ht2
        exact Or.inr ⟨tgt, henv, by simp [← ht2]⟩
      next a2 fs2 t2 heq2 =>
        have ht2 := congrArg Res.trace heq2
        rw [osSymlink_trace] at ht2
        dsimp only at ht2
        exact Or.inr ⟨tgt, henv, by simp [← ht2]⟩

theorem FileSystemImageSandbox.tryCreateUser_fs (sb : FileSystemImageSandbox)
    (w : World) (fs : FS) (tr : List OsAction) :
    (sb.tryCreateUser w fs tr).fs = fs := by
  unfold FileSystemImageSandbox.tryCreateUser
  split <;> (try split) <;> (try split) <;> rfl

theorem FileSystemImageSandbox.tryCreateUser_trace_cases
    (sb : FileSystemImageSandbox) (w : World) (fs : FS) (tr : List OsAction) :
    (sb.tryCreateUser w fs tr).trace = tr ∨
    (∃ home, w.envGet MESOS_SANDBOX_ENV_VARIABLE = some home ∧
      (sb.tryCreateUser w fs tr).trace =
        tr ++ [.spawn ["useradd", "-d", home, "-l", "-m", "-u", sb._uid.getD "",
                       sb._user.getD "None"]]) := by
  unfold FileSystemImageSandbox.tryCreateUser
  split
  · split
    · left; rfl
    next home henv =>
      dsimp only
      split
      · exact Or.inr ⟨home, henv, rfl⟩
      · exact Or.inr ⟨home, henv, rfl⟩
  · left; rfl

theorem FileSystemImageSandbox.create_cases (sb : FileSystemImageSandbox)
    (w : World) (fs : FS) (tr : List OsAction) :
    ((∃ e, (sb.createSymlinks w fs tr).result = .error e) ∧
      sb.create w fs tr = sb.createSymlinks w fs tr) ∨
    ((sb.createSymlinks w fs tr).result = .ok () ∧
      (((∃ e, (sb.tryCreateUser w (sb.createSymlinks w fs tr).fs
                 (sb.createSymlinks w fs tr).trace).result = .error e) ∧
         sb.create w fs tr =
           sb.tryCreateUser w (sb.createSymlinks w fs tr).fs
             (sb.createSymlinks w fs tr).trace) ∨
       ((sb.tryCreateUser w (sb.createSymlinks w fs tr).fs
           (sb.createSymlinks w fs tr).trace).result = .ok () ∧
         sb.create w fs tr =
           DirectorySandbox.create sb.toDirectorySandbox w
             (sb.tryCreateUser w (sb.createSymlinks w fs tr).fs
               (sb.createSymlinks w fs tr).trace).fs
             (sb.tryCreateUser w (sb.createSymlinks w fs tr).fs
               (sb.createSymlinks w fs tr).trace).trace))) := by
  cases hs : (sb.createSymlinks w fs tr).result with
  | error e =>
    exact Or.inl ⟨⟨e, rfl⟩, FileSystemImageSandbox.create_symErr hs⟩
  | ok a =>
    cases a
    right
    refine ⟨rfl, ?_⟩
    cases ht : (sb.tryCreateUser w (sb.createSymlinks w fs tr).fs
        (sb.createSymlinks w fs tr).trace).result with
    | error e =>
      exact Or.inl ⟨⟨e, rfl⟩, FileSystemImageSandbox.create_tcuErr hs ht⟩
    | ok a2 =>
      cases a2
      exact Or.inr ⟨rfl, FileSystemImageSandbox.create_delegate hs ht⟩

theorem safeMkdir_eq_ok {w : World} {p : String} {fs fs1 : FS} {tr t1 : List OsAction}
    {a : Unit} (h : safeMkdir w p fs tr = ⟨.ok a, fs1, t1⟩) :
    w.mkdirErr p = none ∧ fs1 = mkdirFS w p fs ∧ t1 = tr ++ [.mkdir p] := by
  cases hm : w.mkdirErr p with
  | some m => rw [safeMkdir_err hm] at h; cases h
  | none =>
    rw [safeMkdir_ok hm] at h
    injection h with h1 h2 h3
    exact ⟨rfl, h2.symm, h3.symm⟩

theorem osSymlink_eq_ok {w : World} {target p : String} {fs fs2 : FS}
    {tr t2 : List OsAction} {a : Unit}
    (h : osSymlink w target p fs tr = ⟨.ok a, fs2, t2⟩) :
    w.symlinkErr p = none ∧ FS.lookupPath fs p = none ∧
    fs2 = fs.setPath p (.symlink target) ∧ t2 = tr ++ [.symlink target p] := by
  cases hm : w.symlinkErr p with
  | some m => rw [osSymlink_err hm] at h; cases h
  | none =>
    cases hl : FS.lookupPath fs p with
    | some n => rw [osSymlink_exists hm hl] at h; cases h
    | none =>
      rw [osSymlink_ok hm hl] at h
      injection h with h1 h2 h3
      exact ⟨rfl, rfl, h2.symm, h3.symm⟩

theorem FileSystemImageSandbox.createSymlinks_ok_shape {sb : FileSystemImageSandbox}
    {w : World} {fs : FS} {tr : List OsAction}
    (h : (sb.createSymlinks w fs tr).result = .ok ()) :
    ∃ tgt, w.envGet MESOS_SANDBOX_ENV_VARIABLE = some tgt ∧
      sb.createSymlinks w fs tr =
        ⟨.ok (),
         (mkdirFS w (dirname sb._mesos_host_sandbox) fs).setPath sb._mesos_host_sandbox
           (.symlink tgt),
         tr ++ [.mkdir (dirname sb._mesos_host_sandbox),
                .symlink tgt sb._mesos_host_sandbox]⟩ := by
  cases hm : w.mkdirErr (dirname sb._mesos_host_sandbox) with
  | some m =>
    rw [FileSystemImageSandbox.createSymlinks_mkdirErr hm] at h
    simp at h
  | none =>
    cases henv : w.envGet MESOS_SANDBOX_ENV_VARIABLE with
    | none =>
      rw [FileSystemImageSandbox.createSymlinks_envMiss hm henv] at h
      simp at h
    | some tgt =>
      cases hse : w.symlinkErr sb._mesos_host_sandbox with
      | some m =>
        rw [FileSystemImageSandbox.createSymlinks_linkErr hm henv hse] at h
        simp at h
      | none =>
        cases hl : FS.lookupPath (mkdirFS w (dirname sb._mesos_host_sandbox) fs)
            sb._mesos_host_sandbox with
        | some n =>
          have : sb.createSymlinks w fs tr =
              ⟨.error (.creationError ("Failed to create the sandbox root: " ++
                 ("File exists: " ++ sb._mesos_host_sandbox))),
               mkdirFS w (dirname sb._mesos_host_sandbox) fs,
               tr ++ [.mkdir (dirname sb._mesos_host_sandbox),
                      .symlink tgt sb._mesos_host_sandbox]⟩ := by
            unfold FileSystemImageSandbox.createSymlinks
            rw [safeMkdir_ok hm]
            simp [henv, osSymlink_exists hse hl, pyErrStr, List.append_assoc]
          rw [this] at h
          simp at h
        | none =>
          exact ⟨tgt, rfl, FileSystemImageSandbox.createSymlinks_ok hm henv hse hl tr⟩

theorem DirectorySandbox.create_ok_mkdir {w : World} {sb : DirectorySandbox} {fs : FS}
    {tr : List OsAction} (hok : (sb.create w fs tr).result = .ok ()) :
    w.mkdirErr sb._root = none := by
  cases hmk : w.mkdirErr sb._root with
  | some m =>
    rw [DirectorySandbox.create_mkdirErr hmk] at hok
    simp at hok
  | none => rfl

theorem DirectorySandbox.create_ok_user {w : World} {sb : DirectorySandbox} {u : String}
    {fs : FS} {tr : List OsAction}
    (hu : sb._user = some u) (hne : u ≠ "")
    (hfresh : FS.lookupPath fs sb._root = none)
    (hok : (sb.create w fs tr).result = .ok ()) :
    ∃ uid gid gname,
      getpwnam w u = some (uid, gid) ∧ getgrgid w gid = some gname ∧
      w.mkdirErr sb._root = none ∧ w.chownErr sb._root = none ∧
      w.chmodErr sb._root = none := by
  have hmk := DirectorySandbox.create_ok_mkdir hok
  cases hpw : getpwnam w u with
  | none =>
    rw [DirectorySandbox.create_userMiss hu hne hmk hpw] at hok
    simp at hok
  | some pr =>
    obtain ⟨uid, gid⟩ := pr
    cases hgr : getgrgid w gid with
    | none =>
      rw [DirectorySandbox.create_grMiss hu hne hmk hpw hgr] at hok
      simp at hok
    | some gname =>
      cases hco : w.chownErr sb._root with
      | some m =>
        rw [DirectorySandbox.create_chownErr hu hne hmk hpw hgr hco] at hok
        simp at hok
      | none =>
        cases hcm : w.chmodErr sb._root with
        | some m =>
          rw [DirectorySandbox.create_chmodErr hu hne hmk hpw hgr hco hcm hfresh] at hok
          simp at hok
        | none =>
          refine ⟨uid, gid, gname, ?_, ?_, ?_, ?_, ?_⟩ <;> first | rfl | assumption

theorem DirectorySandbox.create_getpwnam_mem {sb : DirectorySandbox} {w : World}
    {u : String} (hu : sb._user = some u) (hne : u ≠ "")
    (hmk : w.mkdirErr sb._root = none) (fs : FS) (tr : List OsAction) :
    OsAction.getpwnam u ∈ (sb.create w fs tr).trace := by
  unfold DirectorySandbox.create
  rw [safeMkdir_ok hmk, hu]
  simp only [truthyOpt_some hne, if_true, Option.getD_some]
  split
  · simp
  next uid gid heqpw =>
    split
    · simp
    · split
      next e fs2 t2 heq2 =>
        have ht2 := congrArg Res.trace heq2
        rw [osChown_trace] at ht2
        dsimp only at ht2
        simp [← ht2]
      next a2 fs2 t2 heq2 =>
        have ht2 := congrArg Res.trace heq2
        rw [osChown_trace] at ht2
        dsimp only at ht2
        split
        next e3 fs3 t3 heq3 =>
          have ht3 := congrArg Res.trace heq3
          rw [osChmod_trace] at ht3
          dsimp only at ht3
          simp [← ht3, ← ht2]
        next a3 fs3 t3 heq3 =>
          have ht3 := congrArg Res.trace heq3
          rw [osChmod_trace] at ht3
          dsimp only at ht3
          simp [← ht3, ← ht2]

theorem FileSystemImageSandbox.init_envMiss {w : World}
    (h : w.envGet MESOS_DIRECTORY_ENV_VARIABLE = none)
    (name : String) (user uid : Option String) :
    FileSystemImageSandbox.init w name user uid = .error (.keyError MESOS_DIRECTORY_ENV_VARIABLE) := by
  unfold FileSystemImageSandbox.init
  rw [h]

/-- C1 (code bug): the claim says that for a docker-style container with
MESOS_COMMAND_UID present the provider returns a FileSystemImageSandbox whose
uid is the environment value (and user the job role).  Evaluating the source
at exactly that input shows the sandbox is constructed with `user` only: the
stripped uid is discarded, so `_uid = none` even though the variable is set —
`from_assigned_task` builds `FileSystemImageSandbox(self.SANDBOX_NAME, user)`
without passing `uid`. -/
theorem c1_docker_uid_not_passed :
    cmdUidWorld.envGet MESOS_COMMAND_UID_ENV_VARIABLE = some "10001" ∧
    dockerTask.container.docker = true ∧
    from_assigned_task cmdUidWorld dockerTask =
      .ok (.fsImage { _mesos_host_sandbox := "/var/lib/mesos/run1",
                      _root := "/var/lib/mesos/run1/sandbox",
                      _uid := none,
                      _user := some "www-data" }) := by
  refine ⟨by decide, rfl, by decide⟩

/-- C2 counterexample: the claim identifies `mesosHostSandbox` with the base
directory environment value joined with the fixed sandbox name.  At this
concrete input the constructed sandbox's `_mesos_host_sandbox` is the raw
environment value `/var/lib/mesos/run1`, which differs from the join (the
join is the `_root`). -/
theorem c2_host_sandbox_not_joined :
    baseWorld.envGet MESOS_DIRECTORY_ENV_VARIABLE = some "/var/lib/mesos/run1" ∧
    FileSystemImageSandbox.init baseWorld SANDBOX_NAME (some "www-data") none =
      .ok { _mesos_host_sandbox := "/var/lib/mesos/run1",
            _root := "/var/lib/mesos/run1/sandbox",
            _uid := none,
            _user := some "www-data" } ∧
    ("/var/lib/mesos/run1" : String) ≠ pathJoin "/var/lib/mesos/run1" SANDBOX_NAME := by
  refine ⟨by decide, by decide, by decide⟩

/-- C5: a DirectorySandbox whose user is absent from the system user database
fails `create()` with the CreationError naming the user; no chown or chmod is
attempted, and the directory made in the first step is left in place. -/
theorem c5_missing_user_creation_error (w : World) (sb : DirectorySandbox) (fs : FS)
    (u : String) (hu : sb._user = some u) (hne : u ≠ "")
    (hpw : getpwnam w u = none) (hmk : w.mkdirErr sb._root = none) :
    (sb.create w fs []).result =
      .error (.creationError ("Could not create sandbox because user does not exist: " ++ u)) ∧
    (∀ p a b, OsAction.chown p a b ∉ (sb.create w fs []).trace) ∧
    (∀ p m, OsAction.chmod p m ∉ (sb.create w fs []).trace) ∧
    (sb.create w fs []).fs = mkdirFS w sb._root fs ∧
    FS.lookupPath (sb.create w fs []).fs sb._root ≠ none := by
  rw [DirectorySandbox.create_userMiss hu hne hmk hpw]
  refine ⟨rfl, ?_, ?_, rfl, ?_⟩
  · intro p a b; simp
  · intro p m; simp
  · exact lookupPath_mkdirFS_self w sb._root fs

/-- C5 witness: concrete run with the user "ghost" missing from the database. -/
theorem c5_missing_user_witness :
    (ghostSb.create baseWorld [] []).result =
      .error (.creationError "Could not create sandbox because user does not exist: ghost") ∧
    (∀ p a b, OsAction.chown p a b ∉ (ghostSb.create baseWorld [] []).trace) ∧
    (∀ p m, OsAction.chmod p m ∉ (ghostSb.create baseWorld [] []).trace) ∧
    (ghostSb.create baseWorld [] []).fs = mkdirFS baseWorld ghostSb._root [] ∧
    FS.lookupPath (ghostSb.create baseWorld [] []).fs ghostSb._root ≠ none :=
  c5_missing_user_creation_error baseWorld ghostSb [] "ghost" rfl (by decide) (by decide) rfl

/-- C7: `destroy()` on a nonexistent root succeeds without error and leaves the
filesystem unchanged, and destroy is idempotent — after one successful
destroy, a second destroy also succeeds. -/
theorem c7_destroy_idempotent (w : World) (sb : DirectorySandbox) (fs : FS) :
    (FS.lookupPath fs sb._root = none →
      sb.destroy w fs [] = ⟨.ok (), fs, [.rmtree sb._root]⟩) ∧
    ((sb.destroy w fs []).result = .ok () →
      (sb.destroy w (sb.destroy w fs []).fs []).result = .ok ()) := by
  constructor
  · intro h
    have h2 := @DirectorySandbox.destroy_absent w sb fs h []
    simpa using h2
  · intro hok
    cases hl : FS.lookupPath fs sb._root with
    | none =>
      rw [DirectorySandbox.destroy_absent hl]
      dsimp only
      rw [DirectorySandbox.destroy_absent hl]
    | some n =>
      cases he : w.rmtreeErr sb._root with
      | some m =>
        rw [DirectorySandbox.destroy_present_err hl he] at hok
        simp at hok
      | none =>
        rw [DirectorySandbox.destroy_present_ok hl he]
        dsimp only
        rw [DirectorySandbox.destroy_absent (FS.lookupPath_removeTree_self fs sb._root)]

/-- C7 witness: concrete runs of both halves. -/
theorem c7_destroy_idempotent_witness :
    dirSb.destroy baseWorld [] [] = ⟨.ok (), [], [.rmtree dirSb._root]⟩ ∧
    (dirSb.destroy baseWorld (dirSb.destroy baseWorld [] []).fs []).result = .ok () :=
  ⟨(c7_destroy_idempotent baseWorld dirSb []).1 (by decide),
   (c7_destroy_idempotent baseWorld dirSb []).2 (by decide)⟩

/-- C9: with MESOS_SANDBOX absent from the environment (and the symlink-parent
mkdir succeeding), FileSystemImageSandbox.create() raises the KeyError for
that variable unwrapped — it is not a CreationError, and it falls outside the
module's Sandbox error taxonomy. -/
theorem c9_keyerror_escapes (w : World) (sb : FileSystemImageSandbox) (fs : FS)
    (hsand : w.envGet MESOS_SANDBOX_ENV_VARIABLE = none)
    (hmk : w.mkdirErr (dirname sb._mesos_host_sandbox) = none) :
    (sb.create w fs []).result = .error (.keyError MESOS_SANDBOX_ENV_VARIABLE) ∧
    isSandboxError (.keyError MESOS_SANDBOX_ENV_VARIABLE) = false := by
  have hsym := FileSystemImageSandbox.createSymlinks_envMiss hmk hsand fs ([] : List OsAction)
  have hres : (sb.createSymlinks w fs []).result =
      .error (.keyError MESOS_SANDBOX_ENV_VARIABLE) := by rw [hsym]
  have hceq := FileSystemImageSandbox.create_symErr hres
  exact ⟨by rw [hceq, hsym], by decide⟩

/-- C9 witness: concrete run with MESOS_SANDBOX removed. -/
theorem c9_keyerror_escapes_witness :
    (imageSb.create noMesosSandboxWorld [] []).result =
      .error (.keyError MESOS_SANDBOX_ENV_VARIABLE) ∧
    isSandboxError (.keyError MESOS_SANDBOX_ENV_VARIABLE) = false :=
  c9_keyerror_escapes noMesosSandboxWorld imageSb [] (by decide) rfl

/-- C10: the FileSystemImageSandbox constructor reads MESOS_DIRECTORY eagerly
and raises an unwrapped KeyError when it is unset, so the provider itself
raises (rather than returning a Sandbox) for docker-style and image-backed
tasks. -/
theorem c10_ctor_keyerror (w : World) (t : AssignedTask)
    (hdir : w.envGet MESOS_DIRECTORY_ENV_VARIABLE = none)
    (hcont : t.container.docker = true ∨
      ∃ m, t.container.mesos = some m ∧ m.image = true) :
    (∀ name user uid, FileSystemImageSandbox.init w name user uid =
      .error (.keyError MESOS_DIRECTORY_ENV_VARIABLE)) ∧
    from_assigned_task w t = .error (.keyError MESOS_DIRECTORY_ENV_VARIABLE) := by
  refine ⟨fun name user uid => FileSystemImageSandbox.init_envMiss hdir name user uid, ?_⟩
  unfold from_assigned_task
  by_cases hd : t.container.docker = true
  · simp [hd, FileSystemImageSandbox.init_envMiss hdir, Except.map]
  · rcases hcont with h | ⟨m, hm, hi⟩
    · exact absurd h hd
    · simp [hd, hm, hi, FileSystemImageSandbox.init_envMiss hdir, Except.map]

/-- C10 witness: concrete empty environment, image-backed task. -/
theorem c10_ctor_keyerror_witness :
    FileSystemImageSandbox.init emptyEnvWorld SANDBOX_NAME none none =
      .error (.keyError MESOS_DIRECTORY_ENV_VARIABLE) ∧
    from_assigned_task emptyEnvWorld imageTask =
      .error (.keyError MESOS_DIRECTORY_ENV_VARIABLE) :=
  ⟨(c10_ctor_keyerror emptyEnvWorld imageTask (by decide)
      (Or.inr ⟨{ image := true }, rfl, rfl⟩)).1 SANDBOX_NAME none none,
   (c10_ctor_keyerror emptyEnvWorld imageTask (by decide)
      (Or.inr ⟨{ image := true }, rfl, rfl⟩)).2⟩

/-- C4: for a DirectorySandbox with a user set, a successful `create()` leaves
the directory at root owned by that user's passwd uid and primary gid with
permission bits exactly 0700; with no user set, a successful `create()` leaves
the directory exactly as the mkdir primitive produced it under the process
umask, with no chown or chmod attempted. -/
theorem c4_ownership_and_mode (w : World) (sb : DirectorySandbox) (fs : FS)
    (hfresh : FS.lookupPath fs sb._root = none) :
    (∀ u, sb._user = some u → u ≠ "" →
      (sb.create w fs []).result = .ok () →
      ∃ uid gid, getpwnam w u = some (uid, gid) ∧
        FS.lookupPath (sb.create w fs []).fs sb._root = some (.dir uid gid 0o700)) ∧
    (truthyOpt sb._user = false →
      (sb.create w fs []).result = .ok () →
      FS.lookupPath (sb.create w fs []).fs sb._root =
        some (.dir w.procUid w.procGid w.umaskDirMode) ∧
      (∀ p a b, OsAction.chown p a b ∉ (sb.create w fs []).trace) ∧
      (∀ p m, OsAction.chmod p m ∉ (sb.create w fs []).trace)) := by
  constructor
  · intro u hu hne hok
    obtain ⟨uid, gid, gname, hpw, hgr, hmk, hco, hcm⟩ :=
      DirectorySandbox.create_ok_user hu hne hfresh hok
    refine ⟨uid, gid, hpw, ?_⟩
    rw [DirectorySandbox.create_user_ok hu hne hmk hpw hgr hco hcm hfresh]
    exact FS.lookupPath_setPath_self _ _ _
  · intro hfalsy hok
    have hmk := DirectorySandbox.create_ok_mkdir hok
    rw [DirectorySandbox.create_noUser hfalsy hmk]
    refine ⟨?_, ?_, ?_⟩
    · rw [mkdirFS_fresh hfresh]
      exact FS.lookupPath_setPath_self _ _ _
    · intro p a b; simp
    · intro p m; simp

/-- C4 witness: concrete successful runs, one with an owning user and one
without. -/
theorem c4_ownership_and_mode_witness :
    (∃ uid gid, getpwnam baseWorld "www-data" = some (uid, gid) ∧
      FS.lookupPath (dirSb.create baseWorld [] []).fs dirSb._root =
        some (.dir uid gid 0o700)) ∧
    (FS.lookupPath (noUserSb.create baseWorld [] []).fs noUserSb._root =
        some (.dir baseWorld.procUid baseWorld.procGid baseWorld.umaskDirMode) ∧
      (∀ p a b, OsAction.chown p a b ∉ (noUserSb.create baseWorld [] []).trace) ∧
      (∀ p m, OsAction.chmod p m ∉ (noUserSb.create baseWorld [] []).trace)) :=
  ⟨(c4_ownership_and_mode baseWorld dirSb [] rfl).1 "www-data" rfl (by decide) (by decide),
   (c4_ownership_and_mode baseWorld noUserSb [] rfl).2 rfl (by decide)⟩

/-- C6: a successful `create()` on a well-formed (fresh-root) filesystem
followed by `exists()` reports true, and on every filesystem — whether or not
the sandbox is present — a successful `destroy()` followed by `exists()`
reports false. -/
theorem c6_create_exists_destroy_gone (w : World) (sb : DirectorySandbox) (fs : FS) :
    (FS.lookupPath fs sb._root = none →
      (sb.create w fs []).result = .ok () →
      sb.existsQ (sb.create w fs []).fs = true) ∧
    ((sb.destroy w fs []).result = .ok () →
      sb.existsQ (sb.destroy w fs []).fs = false) := by
  constructor
  · intro hfresh hok
    have hmk := DirectorySandbox.create_ok_mkdir hok
    cases husr : sb._user with
    | none =>
      rw [DirectorySandbox.create_noUser (by rw [husr]; rfl) hmk]
      dsimp only
      unfold DirectorySandbox.existsQ pathExists
      rw [mkdirFS_fresh hfresh, FS.lookupPath_setPath_self]
    | some u =>
      by_cases hne : u = ""
      · subst hne
        rw [DirectorySandbox.create_noUser (by rw [husr]; rfl) hmk]
        dsimp only
        unfold DirectorySandbox.existsQ pathExists
        rw [mkdirFS_fresh hfresh, FS.lookupPath_setPath_self]
      · obtain ⟨uid, gid, gname, hpw, hgr, _, hco, hcm⟩ :=
          DirectorySandbox.create_ok_user husr hne hfresh hok
        rw [DirectorySandbox.create_user_ok husr hne hmk hpw hgr hco hcm hfresh]
        dsimp only
        unfold DirectorySandbox.existsQ pathExists
        rw [FS.lookupPath_setPath_self]
  · intro hok
    cases hl : FS.lookupPath fs sb._root with
    | none =>
      rw [@DirectorySandbox.destroy_absent w sb fs hl []]
      dsimp only
      unfold DirectorySandbox.existsQ pathExists
      rw [hl]
    | some n =>
      cases he : w.rmtreeErr sb._root with
      | some m =>
        rw [DirectorySandbox.destroy_present_err hl he] at hok
        simp at hok
      | none =>
        rw [DirectorySandbox.destroy_present_ok hl he]
        dsimp only
        unfold DirectorySandbox.existsQ pathExists
        rw [FS.lookupPath_removeTree_self]

/-- C6 witness: a concrete create-then-exists, and a destroy-then-not-exists
run on the filesystem that create produced, so the destroy removes a sandbox
that is actually present. -/
theorem c6_create_exists_destroy_gone_witness :
    dirSb.existsQ (dirSb.create baseWorld [] []).fs = true ∧
    dirSb.existsQ (dirSb.destroy baseWorld (dirSb.create baseWorld [] []).fs []).fs = false :=
  ⟨(c6_create_exists_destroy_gone baseWorld dirSb []).1 rfl (by decide),
   (c6_create_exists_destroy_gone baseWorld dirSb
      (dirSb.create baseWorld [] []).fs).2 (by decide)⟩

/-- C8: a DirectorySandbox constructed without an explicit user argument
carries the process user captured once when the class definition was
evaluated: the construction-time world is irrelevant, the stored user is
the import-time `getpass.getuser()` value, and (that value being nonempty) every
such instance takes the user-lookup branch of `create()` — observable as the
pwd lookup of that user whenever the mkdir step does not fail first. -/
theorem c8_default_user_captured_at_import (wDef : World) (root : String) :
    (∀ wNow wNow', DirectorySandbox.mkDefaultUser wDef wNow root =
       DirectorySandbox.mkDefaultUser wDef wNow' root) ∧
    (∀ wNow, (DirectorySandbox.mkDefaultUser wDef wNow root)._user =
       some wDef.getpassUser) ∧
    (wDef.getpassUser ≠ "" →
      ∀ wNow, truthyOpt (DirectorySandbox.mkDefaultUser wDef wNow root)._user = true ∧
        ∀ w fs, w.mkdirErr root = none →
          OsAction.getpwnam wDef.getpassUser ∈
            ((DirectorySandbox.mkDefaultUser wDef wNow root).create w fs []).trace) := by
  refine ⟨fun _ _ => rfl, fun _ => rfl, fun hne wNow => ⟨truthyOpt_some hne, ?_⟩⟩
  intro w fs hmk
  exact DirectorySandbox.create_getpwnam_mem rfl hne hmk fs []

/-- C8 witness: concrete import-time world whose process user is "root". -/
theorem c8_default_user_captured_at_import_witness :
    (DirectorySandbox.mkDefaultUser baseWorld emptyEnvWorld "/home/worker/sandbox")._user =
      some "root" ∧
    OsAction.getpwnam "root" ∈
      ((DirectorySandbox.mkDefaultUser baseWorld emptyEnvWorld "/home/worker/sandbox").create
        baseWorld [] []).trace :=
  ⟨(c8_default_user_captured_at_import baseWorld "/home/worker/sandbox").2.1 emptyEnvWorld,
   ((c8_default_user_captured_at_import baseWorld "/home/worker/sandbox").2.2 (by decide)
      emptyEnvWorld).2 baseWorld [] rfl⟩

theorem DirectorySandbox.create_trace_shape (sb : DirectorySandbox) (w : World)
    (fs : FS) (tr : List OsAction) :
    ∃ s, (sb.create w fs tr).trace = tr ++ .mkdir sb._root :: s := by
  rcases DirectorySandbox.create_trace_cases sb w fs tr with h | h | ⟨uid, gid, h | h⟩
  · exact ⟨[], h⟩
  · exact ⟨[.getpwnam (sb._user.getD "")], h⟩
  · exact ⟨[.getpwnam (sb._user.getD ""), .chown sb._root uid gid], h⟩
  · exact ⟨[.getpwnam (sb._user.getD ""), .chown sb._root uid gid, .chmod sb._root 0o700], h⟩

theorem DirectorySandbox.create_spawn_not_mem (sb : DirectorySandbox) (w : World)
    (fs : FS) (tr : List OsAction) (a : List String) (h : OsAction.spawn a ∉ tr) :
    OsAction.spawn a ∉ (sb.create w fs tr).trace := by
  rcases DirectorySandbox.create_trace_cases sb w fs tr with h1 | h1 | ⟨uid, gid, h1 | h1⟩ <;>
    rw [h1] <;> simp [List.mem_append, h]

theorem FileSystemImageSandbox.createSymlinks_spawn_not_mem
    (sb : FileSystemImageSandbox) (w : World) (fs : FS) (tr : List OsAction)
    (a : List String) (h : OsAction.spawn a ∉ tr) :
    OsAction.spawn a ∉ (sb.createSymlinks w fs tr).trace := by
  rcases FileSystemImageSandbox.createSymlinks_trace_cases sb w fs tr with h1 | ⟨tgt, _, h1⟩ <;>
    rw [h1] <;> simp [List.mem_append, h]

theorem FileSystemImageSandbox.create_ok_trace {sb : FileSystemImageSandbox}
    {w : World} {fs : FS} (hok : (sb.create w fs []).result = .ok ()) :
    ∃ tgt rest,
      w.envGet MESOS_SANDBOX_ENV_VARIABLE = some tgt ∧
      (sb.create w fs []).trace =
        .mkdir (dirname sb._mesos_host_sandbox) ::
          .symlink tgt sb._mesos_host_sandbox :: rest ∧
      .mkdir sb._root ∈ rest := by
  rcases FileSystemImageSandbox.create_cases sb w fs [] with ⟨⟨e, he⟩, hceq⟩ | ⟨hsymok, hrest⟩
  · rw [hceq] at hok
    rw [he] at hok
    simp at hok
  · obtain ⟨tgt, henvMS, hsymEq⟩ := FileSystemImageSandbox.createSymlinks_ok_shape hsymok
    rcases hrest with ⟨⟨e, hte⟩, hceq⟩ | ⟨htok, hceq⟩
    · rw [hceq] at hok
      rw [hte] at hok
      simp at hok
    · obtain ⟨s, hds⟩ := DirectorySandbox.create_trace_shape sb.toDirectorySandbox w
        ((sb.tryCreateUser w (sb.createSymlinks w fs []).fs
           (sb.createSymlinks w fs []).trace).fs)
        ((sb.tryCreateUser w (sb.createSymlinks w fs []).fs
           (sb.createSymlinks w fs []).trace).trace)
      rcases FileSystemImageSandbox.tryCreateUser_trace_cases sb w
        ((sb.createSymlinks w fs []).fs) ((sb.createSymlinks w fs []).trace) with
        htc | ⟨home, _, htc⟩
      · refine ⟨tgt, .mkdir sb._root :: s, henvMS, ?_, by simp⟩
        rw [hceq, hds, htc, hsymEq]
        simp [FileSystemImageSandbox.toDirectorySandbox]
      · refine ⟨tgt,
          .spawn ["useradd", "-d", home, "-l", "-m", "-u", sb._uid.getD "",
                  sb._user.getD "None"] :: .mkdir sb._root :: s,
          henvMS, ?_, by simp⟩
        rw [hceq, hds, htc, hsymEq]
        simp [FileSystemImageSandbox.toDirectorySandbox]

/-- C2 (amended): for every constructed FileSystemImageSandbox,
`_mesos_host_sandbox` is the externally-supplied base-directory environment
value itself (not the join), the sandbox root is that value joined with the
sandbox name, and a successful `create()` first makes the parent directory of
`_mesos_host_sandbox`, then the symlink at `_mesos_host_sandbox` to the
container-sandbox path from the environment, and only afterwards makes the
sandbox directory itself. -/
theorem c2_host_symlink_before_directory (w : World) (name : String)
    (user uid : Option String) (sb : FileSystemImageSandbox)
    (hinit : FileSystemImageSandbox.init w name user uid = .ok sb) (fs : FS) :
    w.envGet MESOS_DIRECTORY_ENV_VARIABLE = some sb._mesos_host_sandbox ∧
    sb._root = pathJoin sb._mesos_host_sandbox name ∧
    ((sb.create w fs []).result = .ok () →
      ∃ tgt rest,
        w.envGet MESOS_SANDBOX_ENV_VARIABLE = some tgt ∧
        (sb.create w fs []).trace =
          .mkdir (dirname sb._mesos_host_sandbox) ::
            .symlink tgt sb._mesos_host_sandbox :: rest ∧
        .mkdir sb._root ∈ rest) := by
  unfold FileSystemImageSandbox.init at hinit
  cases henv : w.envGet MESOS_DIRECTORY_ENV_VARIABLE with
  | none => rw [henv] at hinit; cases hinit
  | some d =>
    rw [henv] at hinit
    injection hinit with hinit
    subst hinit
    exact ⟨rfl, rfl, fun hok => FileSystemImageSandbox.create_ok_trace hok⟩

/-- C2 witness: a concrete successful run showing the amended wiring. -/
theorem c2_host_symlink_before_directory_witness :
    baseWorld.envGet MESOS_DIRECTORY_ENV_VARIABLE = some imageSb._mesos_host_sandbox ∧
    imageSb._root = pathJoin imageSb._mesos_host_sandbox SANDBOX_NAME ∧
    (∃ tgt rest,
      baseWorld.envGet MESOS_SANDBOX_ENV_VARIABLE = some tgt ∧
      (imageSb.create baseWorld [] []).trace =
        .mkdir (dirname imageSb._mesos_host_sandbox) ::
          .symlink tgt imageSb._mesos_host_sandbox :: rest ∧
      .mkdir imageSb._root ∈ rest) := by
  have h := c2_host_symlink_before_directory baseWorld SANDBOX_NAME (some "www-data") none
    imageSb (by decide) []
  exact ⟨h.1, h.2.1, h.2.2 (by decide)⟩

/-- C3: FileSystemImageSandbox.create() runs symlink wiring, then conditional
user provisioning, then delegation to the directory-create behavior, and
short-circuits on failure: a symlink-step CreationError is returned as-is,
with no child process spawned and no mkdir besides the symlink parent; with a
uid set and useradd exiting nonzero it fails with the CreationError carrying
the exit status and captured output, having spawned exactly the useradd
process after the symlink actions, never reaching the ownership delegation
(no chown/chmod, filesystem unchanged from the symlink step); with no uid set
it spawns no child process and, when the symlink step succeeded, delegates
directly to the directory-create behavior. -/
theorem c3_order_and_short_circuit (w : World) (sb : FileSystemImageSandbox) (fs : FS) :
    (∀ m, (sb.createSymlinks w fs []).result = .error (.creationError m) →
      sb.create w fs [] = sb.createSymlinks w fs [] ∧
      (∀ a, OsAction.spawn a ∉ (sb.create w fs []).trace) ∧
      (∀ p, OsAction.mkdir p ∈ (sb.create w fs []).trace →
        p = dirname sb._mesos_host_sandbox)) ∧
    (∀ u, sb._uid = some u → u ≠ "" →
      (sb.createSymlinks w fs []).result = .ok () → w.useraddExit ≠ 0 →
      ∃ home, w.envGet MESOS_SANDBOX_ENV_VARIABLE = some home ∧
        (sb.create w fs []).result =
          .error (.creationError ("Failed to create user " ++ sb._user.getD "None" ++
            ", useradd exited with code " ++ toString w.useraddExit ++ ".  " ++
            w.useraddOutput)) ∧
        (sb.create w fs []).fs = (sb.createSymlinks w fs []).fs ∧
        (sb.create w fs []).trace =
          (sb.createSymlinks w fs []).trace ++
            [.spawn ["useradd", "-d", home, "-l", "-m", "-u", u, sb._user.getD "None"]] ∧
        (∀ p a b, OsAction.chown p a b ∉ (sb.create w fs []).trace) ∧
        (∀ p mm, OsAction.chmod p mm ∉ (sb.create w fs []).trace)) ∧
    (truthyOpt sb._uid = false →
      (∀ a, OsAction.spawn a ∉ (sb.create w fs []).trace) ∧
      ((sb.createSymlinks w fs []).result = .ok () →
        sb.create w fs [] =
          DirectorySandbox.create sb.toDirectorySandbox w
            (sb.createSymlinks w fs []).fs (sb.createSymlinks w fs []).trace)) := by
  refine ⟨?_, ?_, ?_⟩
  · intro m hm
    have hceq := FileSystemImageSandbox.create_symErr hm
    refine ⟨hceq, ?_, ?_⟩
    · intro a
      rw [hceq]
      exact FileSystemImageSandbox.createSymlinks_spawn_not_mem sb w fs [] a (by simp)
    · intro p hp
      rw [hceq] at hp
      rcases FileSystemImageSandbox.createSymlinks_trace_cases sb w fs [] with
        h1 | ⟨tgt, _, h1⟩ <;> rw [h1] at hp <;> simp_all
  · intro u huid hne hsymok hexit
    obtain ⟨tgt, henvMS, hsymEq⟩ := FileSystemImageSandbox.createSymlinks_ok_shape hsymok
    have htcu := FileSystemImageSandbox.tryCreateUser_fail huid hne henvMS hexit
      ((sb.createSymlinks w fs []).fs) ((sb.createSymlinks w fs []).trace)
    have hceq := FileSystemImageSandbox.create_tcuErr hsymok (by rw [htcu])
    refine ⟨tgt, henvMS, ?_, ?_, ?_, ?_, ?_⟩
    · rw [hceq, htcu]
    · rw [hceq, htcu]
    · rw [hceq, htcu]
    · intro p a b
      rw [hceq, htcu]
      dsimp only
      rw [hsymEq]
      simp
    · intro p mm
      rw [hceq, htcu]
      dsimp only
      rw [hsymEq]
      simp
  · intro hfalsy
    constructor
    · intro a
      rcases FileSystemImageSandbox.create_cases sb w fs [] with
        ⟨⟨e, he⟩, hceq⟩ | ⟨hsymok, hrest⟩
      · rw [hceq]
        exact FileSystemImageSandbox.createSymlinks_spawn_not_mem sb w fs [] a (by simp)
      · have htcu := @FileSystemImageSandbox.tryCreateUser_falsy w sb hfalsy
          ((sb.createSymlinks w fs []).fs) ((sb.createSymlinks w fs []).trace)
        rcases hrest with ⟨⟨e, hte⟩, hceq⟩ | ⟨htok, hceq⟩
        · rw [htcu] at hte
          simp at hte
        · rw [hceq, htcu]
          dsimp only
          exact DirectorySandbox.create_spawn_not_mem _ w _ _ a
            (FileSystemImageSandbox.createSymlinks_spawn_not_mem sb w fs [] a (by simp))
    · intro hsymok
      have htcu := @FileSystemImageSandbox.tryCreateUser_falsy w sb hfalsy
        ((sb.createSymlinks w fs []).fs) ((sb.createSymlinks w fs []).trace)
      have hceq := FileSystemImageSandbox.create_delegate hsymok (by rw [htcu])
      rw [hceq, htcu]

/-- C3 witness: the three scenarios at concrete inputs — symlink-parent mkdir
failing, useradd exiting nonzero with a uid set, and no uid set. -/
theorem c3_order_and_short_circuit_witness :
    (imageSb.create mkdirFailWorld [] [] = imageSb.createSymlinks mkdirFailWorld [] [] ∧
      (∀ a, OsAction.spawn a ∉ (imageSb.create mkdirFailWorld [] []).trace) ∧
      (∀ p, OsAction.mkdir p ∈ (imageSb.create mkdirFailWorld [] []).trace →
        p = dirname imageSb._mesos_host_sandbox)) ∧
    (∃ home, useraddFailWorld.envGet MESOS_SANDBOX_ENV_VARIABLE = some home ∧
      (imageSbUid.create useraddFailWorld [] []).result =
        .error (.creationError ("Failed to create user " ++ imageSbUid._user.getD "None" ++
          ", useradd exited with code " ++ toString useraddFailWorld.useraddExit ++ ".  " ++
          useraddFailWorld.useraddOutput)) ∧
      (imageSbUid.create useraddFailWorld [] []).fs =
        (imageSbUid.createSymlinks useraddFailWorld [] []).fs ∧
      (imageSbUid.create useraddFailWorld [] []).trace =
        (imageSbUid.createSymlinks useraddFailWorld [] []).trace ++
          [.spawn ["useradd", "-d", home, "-l", "-m", "-u", "10001",
                   imageSbUid._user.getD "None"]] ∧
      (∀ p a b, OsAction.chown p a b ∉ (imageSbUid.create useraddFailWorld [] []).trace) ∧
      (∀ p mm, OsAction.chmod p mm ∉ (imageSbUid.create useraddFailWorld [] []).trace)) ∧
    ((∀ a, OsAction.spawn a ∉ (imageSb.create baseWorld [] []).trace) ∧
      imageSb.create baseWorld [] [] =
        DirectorySandbox.create imageSb.toDirectorySandbox baseWorld
          (imageSb.createSymlinks baseWorld [] []).fs
          (imageSb.createSymlinks baseWorld [] []).trace) :=
  ⟨(c3_order_and_short_circuit mkdirFailWorld imageSb []).1
      "Failed to create the sandbox root: Permission denied" (by decide),
   (c3_order_and_short_circuit useraddFailWorld imageSbUid []).2.1
      "10001" rfl (by decide) (by decide) (by decide),
   ⟨((c3_order_and_short_circuit baseWorld imageSb []).2.2 rfl).1,
    ((c3_order_and_short_circuit baseWorld imageSb []).2.2 rfl).2 (by decide)⟩⟩
